import Mathlib

/-!
Shallow embedding of the reactive store layer of `src/bindings/middleware.ts`
(classes `TelemetryStore` and `VideoStore`) from the groundstation-2026
repository, together with the parts of the Tauri event machinery those
classes observe (listen/unlisten tokens).

Modelling conventions:
* JavaScript callbacks are identified by opaque ids (`CallbackId := Nat`);
  the source compares callbacks by reference (`cb !== callback`), which the
  embedding renders as id inequality.
* `listen(...)` returns an unlisten function; the embedding models each call
  as allocating a fresh `ListenerToken` registered in an `EventBridge` state
  holding the set of live subscriptions. Invoking the unlisten function
  removes that token.
* Asynchronous methods become pure functions taking the awaited backend
  result (`Except BackendError _`) as an argument and returning the new
  store state, the bridge state, the list of synchronous subscriber
  notifications emitted, the unlisten functions invoked, and the
  promise outcome. A rejected await aborts the method body at the point
  where the `await` occurs in the source, exactly as a thrown exception
  does in JavaScript.
-/

namespace GroundStation

/-- A dynamically typed field value (`Record<string, any>` payloads only
ever hold JSON scalars in this codebase). -/
inductive FieldValue where
  | num : Int → FieldValue
  | str : String → FieldValue
  | bool : Bool → FieldValue
deriving DecidableEq, Repr

/-- `interface TelemetryData { timestamp: number; fields: Record<string, any> }`. -/
structure TelemetryData where
  timestamp : Int
  fields : List (String × FieldValue)
deriving DecidableEq, Repr

/-- `interface VideoFrameForFrontend` — the UI-facing frame payload.
Note: it carries no stream key. -/
structure VideoFrameForFrontend where
  timestamp : Int
  data_base64 : String
  width : Int
  height : Int
  format : String
deriving DecidableEq, Repr

deriving instance DecidableEq for Except

/-- A rejected backend invocation, carried as its message. -/
abbrev BackendError := String

/-- Reference identity of a JavaScript callback function. -/
abbrev CallbackId := Nat

/-- Identity of one Tauri event subscription (one `listen` call). -/
abbrev ListenerToken := Nat

/-- The event machinery's view: which subscriptions are live, plus a
fresh-token counter. -/
structure EventBridge where
  live : List ListenerToken
  next : ListenerToken
deriving DecidableEq, Repr

/-- The bridge state before any `listen` call. -/
def freshBridge : EventBridge := ⟨[], 0⟩

/-- `listen(...)`: allocate a fresh subscription token. -/
def EventBridge.attach (b : EventBridge) : ListenerToken × EventBridge :=
  (b.next, ⟨b.live ++ [b.next], b.next + 1⟩)

/-- Invoking an unlisten function: the subscription with that token dies. -/
def EventBridge.detach (b : EventBridge) (t : ListenerToken) : EventBridge :=
  ⟨b.live.filter (fun x => x != t), b.next⟩

/-- JavaScript `arr.slice(-n)` for a natural `n`: with `n = 0` the argument
is `-0 === 0`, so the whole array is returned; with `n ≥ 1` the last
`min n arr.length` elements are returned. -/
def sliceLast (n : Nat) (l : List α) : List α :=
  if n = 0 then l else l.drop (l.length - n)

/-- One emitted telemetry subscriber call: which callback, with which window. -/
abbrev TmNotif := CallbackId × List TelemetryData

/-- State of one `TelemetryStore` instance (its private fields). -/
structure TelemetryStore where
  key : String
  data : List TelemetryData
  currentData : Option TelemetryData
  subscribers : List CallbackId
  maxPoints : Nat
  unlisten : Option ListenerToken
deriving DecidableEq, Repr

namespace TelemetryStore

/-- `constructor(key, maxPoints = 100)` — field initialisers plus the two
assignments; no validation is performed. -/
def construct (key : String) (maxPoints : Nat) : TelemetryStore :=
  { key := key, data := [], currentData := none, subscribers := [],
    maxPoints := maxPoints, unlisten := none }

/-- `getAllData()` -/
def getAllData (s : TelemetryStore) : List TelemetryData := s.data

/-- `getCurrentData()` -/
def getCurrentData (s : TelemetryStore) : Option TelemetryData := s.currentData

/-- `private notify()` — synchronously call every subscriber with `this.data`. -/
def notifyEff (s : TelemetryStore) : List TmNotif :=
  s.subscribers.map (fun c => (c, s.data))

/-- Outcome of one (possibly async) store method. -/
structure MethodOut where
  store : TelemetryStore
  bridge : EventBridge
  notifs : List TmNotif
  invoked : List ListenerToken
  result : Except BackendError Unit
deriving DecidableEq, Repr

/-- `async start()`, with the awaited `getTelemetry` result passed in.
The body: fetch snapshot (a rejection propagates before any mutation);
`this.data = existing`; `if (existing.length > 0) this.currentData = last`;
`this.notify()`; then `listen` attaches a subscription whose token is
stored in `this.unlisten` (overwriting, not disposing, any previous one). -/
def startRun (s : TelemetryStore) (fetch : Except BackendError (List TelemetryData))
    (b : EventBridge) : MethodOut :=
  match fetch with
  | .error e => ⟨s, b, [], [], .error e⟩
  | .ok existing =>
    let s1 : TelemetryStore :=
      { s with data := existing,
               currentData := match existing.getLast? with
                              | some x => some x
                              | none => s.currentData }
    let ns := s1.notifyEff
    let p := b.attach
    (⟨{ s1 with unlisten := some p.1 }, p.2, ns, [], .ok ()⟩ : MethodOut)

/-- `stop()` — invoke the stored unlisten function, if any, and clear it. -/
def stopRun (s : TelemetryStore) (b : EventBridge) : MethodOut :=
  match s.unlisten with
  | some t => ⟨{ s with unlisten := none }, b.detach t, [], [t], .ok ()⟩
  | none => ⟨s, b, [], [], .ok ()⟩

/-- The body of the `onTelemetryUpdate` callback installed by `start()`:
`this.currentData = data; this.data = [...this.data, data].slice(-this.maxPoints);
this.notify()`. -/
def pushRun (s : TelemetryStore) (d : TelemetryData) : TelemetryStore × List TmNotif :=
  let s1 : TelemetryStore :=
    { s with currentData := some d,
             data := sliceLast s.maxPoints (s.data ++ [d]) }
  (s1, s1.notifyEff)

/-- `async refresh()`, with the awaited `getTelemetry` result passed in:
`this.data = fetched; if (this.data.length > 0) currentData = last; notify()`. -/
def refreshRun (s : TelemetryStore) (fetch : Except BackendError (List TelemetryData))
    (b : EventBridge) : MethodOut :=
  match fetch with
  | .error e => ⟨s, b, [], [], .error e⟩
  | .ok fetched =>
    let s1 : TelemetryStore :=
      { s with data := fetched,
               currentData := match fetched.getLast? with
                              | some x => some x
                              | none => s.currentData }
    ⟨s1, b, s1.notifyEff, [], .ok ()⟩

/-- `subscribe(callback)` — register the callback, then call it once,
synchronously, with `this.data`, before the disposer is returned. The second
component lists the synchronous calls made during `subscribe`. -/
def subscribeRun (s : TelemetryStore) (c : CallbackId) :
    TelemetryStore × List TmNotif :=
  ({ s with subscribers := s.subscribers ++ [c] }, [(c, s.data)])

/-- The disposer returned by `subscribe(callback)`:
`this.subscribers = this.subscribers.filter(cb => cb !== callback)`. -/
def disposeRun (s : TelemetryStore) (c : CallbackId) : TelemetryStore :=
  { s with subscribers := s.subscribers.filter (fun x => x != c) }

/-- Folding the push-event handler over a sequence of arriving records. -/
def pushMany (s : TelemetryStore) (l : List TelemetryData) : TelemetryStore :=
  l.foldl (fun st d => (pushRun st d).1) s

end TelemetryStore

/-- One emitted video subscriber call: which callback, with which frame. -/
abbrev VdNotif := CallbackId × Option VideoFrameForFrontend

/-- State of one `VideoStore` instance (its private fields). -/
structure VideoStore where
  key : String
  currentFrame : Option VideoFrameForFrontend
  subscribers : List CallbackId
  unlisten : Option ListenerToken
deriving DecidableEq, Repr

namespace VideoStore

/-- `constructor(key)` — field initialisers plus `this.key = key`. -/
def construct (key : String) : VideoStore :=
  { key := key, currentFrame := none, subscribers := [], unlisten := none }

/-- `getCurrentFrame()` -/
def getCurrentFrame (s : VideoStore) : Option VideoFrameForFrontend :=
  s.currentFrame

/-- `private notify()` — synchronously call every subscriber with
`this.currentFrame`. -/
def notifyEff (s : VideoStore) : List VdNotif :=
  s.subscribers.map (fun c => (c, s.currentFrame))

/-- Outcome of one (possibly async) video-store method. -/
structure MethodOut where
  store : VideoStore
  bridge : EventBridge
  notifs : List VdNotif
  invoked : List ListenerToken
  result : Except BackendError Unit
deriving DecidableEq, Repr

/-- `async start()`, with the awaited `getLatestVideoFrame` result passed in:
`this.currentFrame = await ...` (assigned unconditionally, even when null);
`this.notify()`; then `listen('video-frame-update', ...)` whose token is
stored in `this.unlisten` (overwriting, not disposing, any previous one). -/
def startRun (s : VideoStore)
    (fetch : Except BackendError (Option VideoFrameForFrontend))
    (b : EventBridge) : MethodOut :=
  match fetch with
  | .error e => ⟨s, b, [], [], .error e⟩
  | .ok latest =>
    let s1 : VideoStore := { s with currentFrame := latest }
    let ns := s1.notifyEff
    let p := b.attach
    (⟨{ s1 with unlisten := some p.1 }, p.2, ns, [], .ok ()⟩ : MethodOut)

/-- `stop()` — invoke the stored unlisten function, if any, and clear it. -/
def stopRun (s : VideoStore) (b : EventBridge) : MethodOut :=
  match s.unlisten with
  | some t => ⟨{ s with unlisten := none }, b.detach t, [], [t], .ok ()⟩
  | none => ⟨s, b, [], [], .ok ()⟩

/-- The body of the `onVideoFrameUpdate` callback installed by `start()`:
`this.currentFrame = frame; this.notify()`. The `video-frame-update` channel
carries frames of every stream and the payload has no key field; the handler
stores whatever frame arrives — no comparison against `this.key` occurs. -/
def onFrame (s : VideoStore) (frame : VideoFrameForFrontend) :
    VideoStore × List VdNotif :=
  let s1 : VideoStore := { s with currentFrame := some frame }
  (s1, s1.notifyEff)

/-- Delivery of a `video-frame-update` event emitted for stream `sourceKey`
to this instance: if the instance holds a live subscription, its handler
runs on the frame (the handler never sees or tests `sourceKey`, since the
payload does not carry it); otherwise nothing happens. -/
def deliverFrame (s : VideoStore) (sourceKey : String)
    (frame : VideoFrameForFrontend) : VideoStore × List VdNotif :=
  if s.unlisten.isSome then s.onFrame frame else (s, [])

/-- `subscribe(callback)` — register the callback, then call it once,
synchronously, with `this.currentFrame`, before the disposer is returned. -/
def subscribeRun (s : VideoStore) (c : CallbackId) :
    VideoStore × List VdNotif :=
  ({ s with subscribers := s.subscribers ++ [c] }, [(c, s.currentFrame)])

/-- The disposer returned by `subscribe(callback)`:
`this.subscribers = this.subscribers.filter(cb => cb !== callback)`. -/
def disposeRun (s : VideoStore) (c : CallbackId) : VideoStore :=
  { s with subscribers := s.subscribers.filter (fun x => x != c) }

end VideoStore

/-- One externally triggered operation on a `TelemetryStore` instance:
a method call (with the awaited backend result for the async ones) or the
delivery of a `telemetry-update` event. -/
inductive TmOp where
  | startOp : Except BackendError (List TelemetryData) → TmOp
  | stopOp : TmOp
  | pushOp : TelemetryData → TmOp
  | refreshOp : Except BackendError (List TelemetryData) → TmOp
  | subscribeOp : CallbackId → TmOp
  | disposeOp : CallbackId → TmOp
deriving DecidableEq, Repr

/-- Apply one operation to a telemetry store together with the event
machinery. A pushed record reaches the handler only while the instance
holds a live subscription. -/
def tmStep (σ : TelemetryStore × EventBridge) (op : TmOp) :
    TelemetryStore × EventBridge :=
  match op with
  | .startOp f => let r := TelemetryStore.startRun σ.1 f σ.2; (r.store, r.bridge)
  | .stopOp => let r := TelemetryStore.stopRun σ.1 σ.2; (r.store, r.bridge)
  | .pushOp d =>
    if σ.1.unlisten.isSome then ((TelemetryStore.pushRun σ.1 d).1, σ.2) else σ
  | .refreshOp f => let r := TelemetryStore.refreshRun σ.1 f σ.2; (r.store, r.bridge)
  | .subscribeOp c => ((TelemetryStore.subscribeRun σ.1 c).1, σ.2)
  | .disposeOp c => (TelemetryStore.disposeRun σ.1 c, σ.2)

/-- Run a sequence of operations. -/
def tmRunOps (σ : TelemetryStore × EventBridge) (ops : List TmOp) :
    TelemetryStore × EventBridge :=
  ops.foldl tmStep σ

/-- A call sequence that never invokes `start()` on an instance that is
already started (its `unlisten` still holds a token). -/
def tmDisciplined (σ : TelemetryStore × EventBridge) : List TmOp → Bool
  | [] => true
  | op :: ops =>
    (match op with
     | TmOp.startOp _ => σ.1.unlisten.isNone
     | _ => true)
    && tmDisciplined (tmStep σ op) ops

/-- One externally triggered operation on a `VideoStore` instance. For
`deliverOp` the first argument is the stream the backend emitted the frame
for; the payload itself carries no key. -/
inductive VdOp where
  | startOp : Except BackendError (Option VideoFrameForFrontend) → VdOp
  | stopOp : VdOp
  | deliverOp : String → VideoFrameForFrontend → VdOp
  | refreshOp : Except BackendError (Option VideoFrameForFrontend) → VdOp
  | subscribeOp : CallbackId → VdOp
  | disposeOp : CallbackId → VdOp
deriving DecidableEq, Repr

/-- `async refresh()` of `VideoStore`, with the awaited result passed in:
`this.currentFrame = await ...; this.notify()`. -/
def VideoStore.refreshRun (s : VideoStore)
    (fetch : Except BackendError (Option VideoFrameForFrontend))
    (b : EventBridge) : VideoStore.MethodOut :=
  match fetch with
  | .error e => ⟨s, b, [], [], .error e⟩
  | .ok latest =>
    let s1 : VideoStore := { s with currentFrame := latest }
    ⟨s1, b, s1.notifyEff, [], .ok ()⟩

/-- Apply one operation to a video store together with the event machinery. -/
def vdStep (σ : VideoStore × EventBridge) (op : VdOp) :
    VideoStore × EventBridge :=
  match op with
  | .startOp f => let r := VideoStore.startRun σ.1 f σ.2; (r.store, r.bridge)
  | .stopOp => let r := VideoStore.stopRun σ.1 σ.2; (r.store, r.bridge)
  | .deliverOp k fr => ((VideoStore.deliverFrame σ.1 k fr).1, σ.2)
  | .refreshOp f => let r := VideoStore.refreshRun σ.1 f σ.2; (r.store, r.bridge)
  | .subscribeOp c => ((VideoStore.subscribeRun σ.1 c).1, σ.2)
  | .disposeOp c => (VideoStore.disposeRun σ.1 c, σ.2)

/-- Run a sequence of operations on a video store. -/
def vdRunOps (σ : VideoStore × EventBridge) (ops : List VdOp) :
    VideoStore × EventBridge :=
  ops.foldl vdStep σ

/-- A call sequence that never invokes `start()` on an instance that is
already started. -/
def vdDisciplined (σ : VideoStore × EventBridge) : List VdOp → Bool
  | [] => true
  | op :: ops =>
    (match op with
     | VdOp.startOp _ => σ.1.unlisten.isNone
     | _ => true)
    && vdDisciplined (vdStep σ op) ops

/-- The listener-lifecycle invariant of one store instance: the set of live
subscriptions attached by the instance is exactly the token it currently
stores — one when started, none when stopped. -/
def ListenerInv (unl : Option ListenerToken) (b : EventBridge) : Prop :=
  match unl with
  | none => b.live = []
  | some t => b.live = [t]

/-- Sample telemetry records used by concrete witnesses. -/
def rA : TelemetryData := ⟨0, [("alt", FieldValue.num 10)]⟩

/-- Second sample record. -/
def rB : TelemetryData := ⟨1, [("alt", FieldValue.num 12)]⟩

/-- Third sample record. -/
def rC : TelemetryData := ⟨2, [("alt", FieldValue.num 15)]⟩

/-- Sample video frames used by concrete inputs. -/
def frameA : VideoFrameForFrontend := ⟨10, "QQ==", 640, 480, "jpeg"⟩

/-- Second sample frame. -/
def frameB : VideoFrameForFrontend := ⟨11, "Qg==", 640, 480, "jpeg"⟩

/-! ### Lemmas about `sliceLast` (JavaScript `slice(-n)`) -/

theorem sliceLast_nil (n : Nat) : sliceLast n ([] : List α) = [] := by
  unfold sliceLast
  by_cases hn : n = 0 <;> simp [hn]

/-- Re-slicing after one append equals slicing the un-sliced history:
`slice(-n)` of (already sliced buffer ++ one new record) is `slice(-n)` of
(full history ++ that record). -/
theorem sliceLast_concat_merge (n : Nat) (a : List α) (d : α) :
    sliceLast n (sliceLast n a ++ [d]) = sliceLast n (a ++ [d]) := by
  unfold sliceLast
  by_cases hn : n = 0
  · simp [hn]
  · simp only [if_neg hn]
    by_cases hle : a.length ≤ n
    · have h0 : a.length - n = 0 := Nat.sub_eq_zero_of_le hle
      simp [h0]
    · have hAlen : (a.drop (a.length - n)).length = n := by
        rw [List.length_drop]; omega
      have e1 : (a.drop (a.length - n) ++ [d]).length - n = 1 := by
        simp only [List.length_append, hAlen, List.length_cons, List.length_nil]
        omega
      have e2 : (a ++ [d]).length - n = a.length + 1 - n := by
        simp only [List.length_append, List.length_cons, List.length_nil]
      rw [e1, e2,
        List.drop_append_of_le_length (by omega : 1 ≤ (a.drop (a.length - n)).length),
        List.drop_drop,
        List.drop_append_of_le_length (by omega : a.length + 1 - n ≤ a.length)]
      congr 2
      omega

/-- The last element of a `slice(-n)` of a list ending in `d` is `d`. -/
theorem sliceLast_concat_getLast (n : Nat) (l : List α) (d : α) :
    (sliceLast n (l ++ [d])).getLast? = some d := by
  unfold sliceLast
  by_cases hn : n = 0
  · simp [hn, List.getLast?_append]
  · simp only [if_neg hn]
    have hk : (l ++ [d]).length - n ≤ l.length := by
      simp only [List.length_append, List.length_cons, List.length_nil]
      omega
    rw [List.drop_append_of_le_length hk]
    simp [List.getLast?_append]

/-- Folding the push handler keeps the buffer equal to `slice(-maxPoints)`
of the full append history, and never touches `maxPoints`. -/
theorem pushMany_data_general (l : List TelemetryData) :
    ∀ (s : TelemetryStore) (c : List TelemetryData),
      s.data = sliceLast s.maxPoints c →
      (s.pushMany l).data = sliceLast s.maxPoints (c ++ l) ∧
      (s.pushMany l).maxPoints = s.maxPoints := by
  induction l with
  | nil =>
    intro s c h
    exact ⟨by simpa [TelemetryStore.pushMany] using h, rfl⟩
  | cons d tl ih =>
    intro s c h
    have hmp : ((TelemetryStore.pushRun s d).1).maxPoints = s.maxPoints := rfl
    have hstep : ((TelemetryStore.pushRun s d).1).data
        = sliceLast ((TelemetryStore.pushRun s d).1).maxPoints (c ++ [d]) := by
      show sliceLast s.maxPoints (s.data ++ [d]) = sliceLast s.maxPoints (c ++ [d])
      rw [h, sliceLast_concat_merge]
    obtain ⟨h1, h2⟩ := ih ((TelemetryStore.pushRun s d).1) (c ++ [d]) hstep
    have hpm : s.pushMany (d :: tl) = ((TelemetryStore.pushRun s d).1).pushMany tl := rfl
    rw [hpm]
    refine ⟨?_, by rw [h2, hmp]⟩
    rw [h1, hmp]
    congr 1
    simp

/-- The "current = last" store invariant: whenever the buffer is non-empty,
the current pointer is its last record. -/
def CurrentInv (s : TelemetryStore) : Prop :=
  s.data ≠ [] → s.currentData = s.data.getLast?

theorem currentInv_of_eq {s s' : TelemetryStore} (hd : s'.data = s.data)
    (hc : s'.currentData = s.currentData) (h : CurrentInv s) : CurrentInv s' := by
  intro hne
  rw [hd, hc]
  exact h (by rwa [hd] at hne)

/-- Every operation preserves the "current = last" invariant. -/
theorem tmStep_preserves_current (σ : TelemetryStore × EventBridge) (op : TmOp)
    (h : CurrentInv σ.1) : CurrentInv (tmStep σ op).1 := by
  obtain ⟨s, br⟩ := σ
  obtain ⟨k, dt, cd, sb, mp, ul⟩ := s
  cases op with
  | startOp f =>
    cases f with
    | error e => exact h
    | ok existing =>
      rcases existing.eq_nil_or_concat' with rfl | ⟨L, x, rfl⟩
      · intro hne
        exact absurd rfl hne
      · intro hne
        have hgl : (L ++ [x]).getLast? = some x := by simp [List.getLast?_append]
        show (match (L ++ [x]).getLast? with
              | some y => some y
              | none => cd) = (L ++ [x]).getLast?
        rw [hgl]
  | stopOp =>
    cases ul with
    | none => exact currentInv_of_eq rfl rfl h
    | some t => exact currentInv_of_eq rfl rfl h
  | pushOp d =>
    cases ul with
    | none => exact currentInv_of_eq rfl rfl h
    | some t =>
      intro hne
      exact (sliceLast_concat_getLast mp dt d).symm
  | refreshOp f =>
    cases f with
    | error e => exact h
    | ok fetched =>
      rcases fetched.eq_nil_or_concat' with rfl | ⟨L, x, rfl⟩
      · intro hne
        exact absurd rfl hne
      · intro hne
        have hgl : (L ++ [x]).getLast? = some x := by simp [List.getLast?_append]
        show (match (L ++ [x]).getLast? with
              | some y => some y
              | none => cd) = (L ++ [x]).getLast?
        rw [hgl]
  | subscribeOp c => exact currentInv_of_eq rfl rfl h
  | disposeOp c => exact currentInv_of_eq rfl rfl h

/-- The "current = last" invariant holds along every run. -/
theorem tmRunOps_current (σ : TelemetryStore × EventBridge) (ops : List TmOp)
    (h : CurrentInv σ.1) : CurrentInv (tmRunOps σ ops).1 := by
  induction ops generalizing σ with
  | nil => exact h
  | cons op tl ih => exact ih _ (tmStep_preserves_current σ op h)

theorem listenerInv_consequences (unl : Option ListenerToken) (b : EventBridge)
    (h : ListenerInv unl b) : b.live.length ≤ 1 ∧ (unl = none → b.live = []) := by
  cases unl with
  | none => exact ⟨by simp [ListenerInv] at h; simp [h], fun _ => h⟩
  | some t => exact ⟨by simp [ListenerInv] at h; simp [h], fun hn => Option.noConfusion hn⟩

/-- A disciplined step (no `start()` on an already started instance)
preserves the listener-lifecycle invariant of a telemetry store. -/
theorem tmStep_listener (σ : TelemetryStore × EventBridge) (op : TmOp)
    (h : ListenerInv σ.1.unlisten σ.2)
    (hd : (match op with
           | TmOp.startOp _ => σ.1.unlisten.isNone
           | _ => true) = true) :
    ListenerInv (tmStep σ op).1.unlisten (tmStep σ op).2 := by
  obtain ⟨s, br⟩ := σ
  obtain ⟨k, dt, cd, sb, mp, ul⟩ := s
  cases op with
  | startOp f =>
    cases ul with
    | some t => simp at hd
    | none =>
      cases f with
      | error e => exact h
      | ok existing =>
        show br.live ++ [br.next] = [br.next]
        have hl : br.live = [] := h
        rw [hl]
        rfl
  | stopOp =>
    cases ul with
    | none => exact h
    | some t =>
      show br.live.filter (fun x => x != t) = []
      have hl : br.live = [t] := h
      rw [hl]
      simp
  | pushOp d =>
    cases ul with
    | none => exact h
    | some t => exact h
  | refreshOp f =>
    cases f with
    | error e => exact h
    | ok fetched => exact h
  | subscribeOp c => exact h
  | disposeOp c => exact h

/-- The listener-lifecycle invariant holds along every disciplined
telemetry run. -/
theorem tmRunOps_listener (σ : TelemetryStore × EventBridge) (ops : List TmOp)
    (h : ListenerInv σ.1.unlisten σ.2) (hd : tmDisciplined σ ops = true) :
    ListenerInv (tmRunOps σ ops).1.unlisten (tmRunOps σ ops).2 := by
  induction ops generalizing σ with
  | nil => exact h
  | cons op tl ih =>
    simp only [tmDisciplined, Bool.and_eq_true] at hd
    exact ih _ (tmStep_listener σ op h hd.1) hd.2

/-- A disciplined step preserves the listener-lifecycle invariant of a
video store. -/
theorem vdStep_listener (σ : VideoStore × EventBridge) (op : VdOp)
    (h : ListenerInv σ.1.unlisten σ.2)
    (hd : (match op with
           | VdOp.startOp _ => σ.1.unlisten.isNone
           | _ => true) = true) :
    ListenerInv (vdStep σ op).1.unlisten (vdStep σ op).2 := by
  obtain ⟨s, br⟩ := σ
  obtain ⟨k, cf, sb, ul⟩ := s
  cases op with
  | startOp f =>
    cases ul with
    | some t => simp at hd
    | none =>
      cases f with
      | error e => exact h
      | ok latest =>
        show br.live ++ [br.next] = [br.next]
        have hl : br.live = [] := h
        rw [hl]
        rfl
  | stopOp =>
    cases ul with
    | none => exact h
    | some t =>
      show br.live.filter (fun x => x != t) = []
      have hl : br.live = [t] := h
      rw [hl]
      simp
  | deliverOp sk fr =>
    cases ul with
    | none => exact h
    | some t => exact h
  | refreshOp f =>
    cases f with
    | error e => exact h
    | ok latest => exact h
  | subscribeOp c => exact h
  | disposeOp c => exact h

/-- The listener-lifecycle invariant holds along every disciplined video
run. -/
theorem vdRunOps_listener (σ : VideoStore × EventBridge) (ops : List VdOp)
    (h : ListenerInv σ.1.unlisten σ.2) (hd : vdDisciplined σ ops = true) :
    ListenerInv (vdRunOps σ ops).1.unlisten (vdRunOps σ ops).2 := by
  induction ops generalizing σ with
  | nil => exact h
  | cons op tl ih =>
    simp only [vdDisciplined, Bool.and_eq_true] at hd
    exact ih _ (vdStep_listener σ op h hd.1) hd.2

/-! ### Claim theorems -/

/-- C2 counterexample: on a fresh `TelemetryStore`, calling `start()` twice
without an intervening `stop()` leaves two live subscriptions — the first
listener is leaked, its token overwritten — and a subsequent `stop()`
removes only the second one, so a live listener attached by the instance
remains after `stop()` returns. -/
theorem c2_double_start_leaks_listener :
    (tmRunOps (TelemetryStore.construct "k" 3, freshBridge)
        [TmOp.startOp (.ok []), TmOp.startOp (.ok [])]).2.live = [0, 1] ∧
    (tmRunOps (TelemetryStore.construct "k" 3, freshBridge)
        [TmOp.startOp (.ok []), TmOp.startOp (.ok []), TmOp.stopOp]).2.live
      = [0] := by
  exact ⟨rfl, rfl⟩

/-- C2 amended: for every `TelemetryStore` or `VideoStore` instance and
every finite operation sequence in which `start()` is never called while
the instance is already started, at most one live event-channel
subscription is ever held, and after `stop()` no live listener attached by
that instance remains. (Calling `start()` a second time without an
intervening `stop()` overwrites the stored unlisten function and leaks the
first listener, leaving two active subscriptions.) -/
theorem c2_single_live_listener_amended :
    (∀ (key : String) (n : Nat) (ops : List TmOp),
      tmDisciplined (TelemetryStore.construct key n, freshBridge) ops = true →
      (tmRunOps (TelemetryStore.construct key n, freshBridge) ops).2.live.length ≤ 1 ∧
      ((tmRunOps (TelemetryStore.construct key n, freshBridge) ops).1.unlisten = none →
        (tmRunOps (TelemetryStore.construct key n, freshBridge) ops).2.live = [])) ∧
    (∀ (key : String) (ops : List VdOp),
      vdDisciplined (VideoStore.construct key, freshBridge) ops = true →
      (vdRunOps (VideoStore.construct key, freshBridge) ops).2.live.length ≤ 1 ∧
      ((vdRunOps (VideoStore.construct key, freshBridge) ops).1.unlisten = none →
        (vdRunOps (VideoStore.construct key, freshBridge) ops).2.live = [])) := by
  constructor
  · intro key n ops hd
    exact listenerInv_consequences _ _
      (tmRunOps_listener (TelemetryStore.construct key n, freshBridge) ops rfl hd)
  · intro key ops hd
    exact listenerInv_consequences _ _
      (vdRunOps_listener (VideoStore.construct key, freshBridge) ops rfl hd)

/-- Witness for C2 amended: a disciplined start–stop pair on each store
kind ends with no live listener. -/
theorem c2_single_live_listener_amended_witness :
    (tmDisciplined (TelemetryStore.construct "k" 3, freshBridge)
        [TmOp.startOp (.ok []), TmOp.stopOp] = true ∧
      (tmRunOps (TelemetryStore.construct "k" 3, freshBridge)
        [TmOp.startOp (.ok []), TmOp.stopOp]).2.live = []) ∧
    (vdDisciplined (VideoStore.construct "v", freshBridge)
        [VdOp.startOp (.ok none), VdOp.stopOp] = true ∧
      (vdRunOps (VideoStore.construct "v", freshBridge)
        [VdOp.startOp (.ok none), VdOp.stopOp]).2.live = []) := by
  refine ⟨⟨by decide, ?_⟩, ⟨by decide, ?_⟩⟩
  · exact (c2_single_live_listener_amended.1 "k" 3
      [TmOp.startOp (.ok []), TmOp.stopOp] (by decide)).2 (by decide)
  · exact (c2_single_live_listener_amended.2 "v"
      [VdOp.startOp (.ok none), VdOp.stopOp] (by decide)).2 (by decide)

/-- C6: `start()` after `stop()` replaces the buffer wholesale with the
fresh snapshot — the resulting window is exactly the snapshot, independent
of the previously buffered records — and every subscriber registered before
the restart is synchronously notified with exactly that new window. -/
theorem c6_restart_replaces_buffer (s : TelemetryStore) (b : EventBridge)
    (snap : List TelemetryData) :
    (TelemetryStore.startRun (TelemetryStore.stopRun s b).store (.ok snap)
        (TelemetryStore.stopRun s b).bridge).store.getAllData = snap ∧
    (TelemetryStore.startRun (TelemetryStore.stopRun s b).store (.ok snap)
        (TelemetryStore.stopRun s b).bridge).notifs
      = s.subscribers.map (fun c => (c, snap)) := by
  obtain ⟨k, dt, cd, sb, mp, ul⟩ := s
  cases ul <;> exact ⟨rfl, rfl⟩

/-- C7: when the snapshot fetch awaited inside `start()` rejects, the
rejection propagates to the caller unchanged, no subscriber is notified,
and the store and event machinery are left exactly as they were — buffer,
current pointer, subscriber set and (absence of a) subscription included —
so a later retry of `start()` runs from the same state. -/
theorem c7_failed_fetch_leaves_state_unchanged (s : TelemetryStore)
    (b : EventBridge) (e : BackendError) :
    (TelemetryStore.startRun s (.error e) b).store = s ∧
    (TelemetryStore.startRun s (.error e) b).bridge = b ∧
    (TelemetryStore.startRun s (.error e) b).notifs = [] ∧
    (TelemetryStore.startRun s (.error e) b).result = .error e := by
  exact ⟨rfl, rfl, rfl, rfl⟩

/-- C8: for both store kinds, `subscribe(callback)` makes exactly one
synchronous call to the callback before returning — with the current
window (`this.data`, the empty sequence included) for a `TelemetryStore`,
and with the current frame (`null` included) for a `VideoStore` — and
appends the callback to the subscriber set. -/
theorem c8_subscribe_delivers_once_synchronously :
    (∀ (s : TelemetryStore) (c : CallbackId),
      (TelemetryStore.subscribeRun s c).2 = [(c, s.getAllData)] ∧
      (TelemetryStore.subscribeRun s c).1.subscribers = s.subscribers ++ [c]) ∧
    (∀ (v : VideoStore) (c : CallbackId),
      (VideoStore.subscribeRun v c).2 = [(c, v.getCurrentFrame)] ∧
      (VideoStore.subscribeRun v c).1.subscribers = v.subscribers ++ [c]) := by
  exact ⟨fun s c => ⟨rfl, rfl⟩, fun v c => ⟨rfl, rfl⟩⟩

/-- C9: for both store kinds, a second `stop()` with no intervening
`start()` changes nothing, performs no teardown, and returns without error;
across the two calls the stored unlisten function is invoked at most once. -/
theorem c9_stop_idempotent :
    (∀ (s : TelemetryStore) (b : EventBridge),
      (TelemetryStore.stopRun (TelemetryStore.stopRun s b).store
          (TelemetryStore.stopRun s b).bridge).store
        = (TelemetryStore.stopRun s b).store ∧
      (TelemetryStore.stopRun (TelemetryStore.stopRun s b).store
          (TelemetryStore.stopRun s b).bridge).bridge
        = (TelemetryStore.stopRun s b).bridge ∧
      (TelemetryStore.stopRun (TelemetryStore.stopRun s b).store
          (TelemetryStore.stopRun s b).bridge).invoked = [] ∧
      (TelemetryStore.stopRun (TelemetryStore.stopRun s b).store
          (TelemetryStore.stopRun s b).bridge).result = .ok () ∧
      (TelemetryStore.stopRun s b).invoked.length ≤ 1) ∧
    (∀ (v : VideoStore) (b : EventBridge),
      (VideoStore.stopRun (VideoStore.stopRun v b).store
          (VideoStore.stopRun v b).bridge).store
        = (VideoStore.stopRun v b).store ∧
      (VideoStore.stopRun (VideoStore.stopRun v b).store
          (VideoStore.stopRun v b).bridge).bridge
        = (VideoStore.stopRun v b).bridge ∧
      (VideoStore.stopRun (VideoStore.stopRun v b).store
          (VideoStore.stopRun v b).bridge).invoked = [] ∧
      (VideoStore.stopRun (VideoStore.stopRun v b).store
          (VideoStore.stopRun v b).bridge).result = .ok () ∧
      (VideoStore.stopRun v b).invoked.length ≤ 1) := by
  constructor
  · intro s b
    obtain ⟨k, dt, cd, sb, mp, ul⟩ := s
    cases ul with
    | none => exact ⟨rfl, rfl, rfl, rfl, Nat.zero_le 1⟩
    | some t => exact ⟨rfl, rfl, rfl, rfl, Nat.le_refl 1⟩
  · intro v b
    obtain ⟨k, cf, sb, ul⟩ := v
    cases ul with
    | none => exact ⟨rfl, rfl, rfl, rfl, Nat.zero_le 1⟩
    | some t => exact ⟨rfl, rfl, rfl, rfl, Nat.le_refl 1⟩

/-- C10: for both store kinds, the disposer returned by
`subscribe(callback)` filters out every registration whose callback is
reference-equal to the captured one (so a doubly registered callback loses
both registrations at once), leaves the registration count of every other
callback unchanged, and is a no-op when invoked again. -/
theorem c10_disposer_removes_all_occurrences :
    (∀ (s : TelemetryStore) (c : CallbackId),
      (TelemetryStore.disposeRun s c).subscribers.count c = 0 ∧
      (∀ d : CallbackId, d ≠ c →
        (TelemetryStore.disposeRun s c).subscribers.count d
          = s.subscribers.count d) ∧
      TelemetryStore.disposeRun (TelemetryStore.disposeRun s c) c
        = TelemetryStore.disposeRun s c) ∧
    (∀ (v : VideoStore) (c : CallbackId),
      (VideoStore.disposeRun v c).subscribers.count c = 0 ∧
      (∀ d : CallbackId, d ≠ c →
        (VideoStore.disposeRun v c).subscribers.count d
          = v.subscribers.count d) ∧
      VideoStore.disposeRun (VideoStore.disposeRun v c) c
        = VideoStore.disposeRun v c) := by
  constructor
  · intro s c
    refine ⟨?_, ?_, ?_⟩
    · show (s.subscribers.filter (fun x => x != c)).count c = 0
      simp [List.count_eq_zero, List.mem_filter]
    · intro d hd
      show (s.subscribers.filter (fun x => x != c)).count d = s.subscribers.count d
      rw [List.count_filter (by simpa using hd)]
    · obtain ⟨k, dt, cd, sb, mp, ul⟩ := s
      show (⟨k, dt, cd, (sb.filter (fun x => x != c)).filter (fun x => x != c),
              mp, ul⟩ : TelemetryStore)
        = ⟨k, dt, cd, sb.filter (fun x => x != c), mp, ul⟩
      rw [List.filter_eq_self.mpr (fun x hx => (List.mem_filter.mp hx).2)]
  · intro v c
    refine ⟨?_, ?_, ?_⟩
    · show (v.subscribers.filter (fun x => x != c)).count c = 0
      simp [List.count_eq_zero, List.mem_filter]
    · intro d hd
      show (v.subscribers.filter (fun x => x != c)).count d = v.subscribers.count d
      rw [List.count_filter (by simpa using hd)]
    · obtain ⟨k, cf, sb, ul⟩ := v
      show (⟨k, cf, (sb.filter (fun x => x != c)).filter (fun x => x != c),
              ul⟩ : VideoStore)
        = ⟨k, cf, sb.filter (fun x => x != c), ul⟩
      rw [List.filter_eq_self.mpr (fun x hx => (List.mem_filter.mp hx).2)]

/-- Witness for C10: a store holding callbacks `[4, 7, 4]` — callback 4
registered twice — loses both registrations of 4 on one disposer call,
keeps callback 7, and a second disposer call changes nothing. -/
theorem c10_disposer_removes_all_occurrences_witness :
    (TelemetryStore.disposeRun ⟨"k", [], none, [4, 7, 4], 5, none⟩ 4).subscribers.count 4
      = 0 ∧
    ((7 : CallbackId) ≠ 4 ∧
      (TelemetryStore.disposeRun ⟨"k", [], none, [4, 7, 4], 5, none⟩ 4).subscribers.count 7
        = ([4, 7, 4] : List CallbackId).count 7) ∧
    TelemetryStore.disposeRun
        (TelemetryStore.disposeRun ⟨"k", [], none, [4, 7, 4], 5, none⟩ 4) 4
      = TelemetryStore.disposeRun ⟨"k", [], none, [4, 7, 4], 5, none⟩ 4 := by
  have h := c10_disposer_removes_all_occurrences.1 ⟨"k", [], none, [4, 7, 4], 5, none⟩ 4
  exact ⟨h.1, ⟨by decide, h.2.1 7 (by decide)⟩, h.2.2⟩

/-- C1 (code bug): the claim matches the spec's stated intent (and the
source comment "we filter by key"), but the handler installed by
`VideoStore.start()` performs no key filtering: a started store for key
"A" whose current frame is `frameA` receives a push event emitted for
stream "B" and does update its current frame to that stream's frame,
emitting a subscriber notification. -/
theorem c1_video_push_ignores_key :
    ((vdRunOps (VideoStore.construct "A", freshBridge)
        [VdOp.startOp (.ok (some frameA)), VdOp.subscribeOp 5]).1.getCurrentFrame
      = some frameA) ∧
    ((VideoStore.deliverFrame
        (vdRunOps (VideoStore.construct "A", freshBridge)
          [VdOp.startOp (.ok (some frameA)), VdOp.subscribeOp 5]).1
        "B" frameB).1.getCurrentFrame = some frameB) ∧
    ((VideoStore.deliverFrame
        (vdRunOps (VideoStore.construct "A", freshBridge)
          [VdOp.startOp (.ok (some frameA)), VdOp.subscribeOp 5]).1
        "B" frameB).2 = [(5, some frameB)]) ∧
    some frameB ≠ some frameA := by
  exact ⟨rfl, rfl, rfl, by decide⟩

/-- C5 counterexample: after `start()` seeds the buffer with one record and
a later `refresh()` fetch returns the empty list, the buffer is empty yet
`getCurrentData()` still returns the stale record, not null. -/
theorem c5_stale_current_on_empty_refresh :
    (tmRunOps (TelemetryStore.construct "alt" 3, freshBridge)
        [TmOp.startOp (.ok [rA]), TmOp.refreshOp (.ok [])]).1.getAllData = [] ∧
    (tmRunOps (TelemetryStore.construct "alt" 3, freshBridge)
        [TmOp.startOp (.ok [rA]), TmOp.refreshOp (.ok [])]).1.getCurrentData
      = some rA := by
  exact ⟨rfl, rfl⟩

/-- C5 amended: whenever the buffer is non-empty — after seeding, pushes,
refreshes, or any other operation sequence — `getCurrentData()` is the last
record of `getAllData()`; a freshly constructed store returns null. (When
the buffer is empty after a fetch returned an empty snapshot, the current
pointer may retain the previously observed record instead of null.) -/
theorem c5_current_equals_last_amended (key : String) (n : Nat) (ops : List TmOp)
    (h : (tmRunOps (TelemetryStore.construct key n, freshBridge) ops).1.getAllData ≠ []) :
    (tmRunOps (TelemetryStore.construct key n, freshBridge) ops).1.getCurrentData
      = (tmRunOps (TelemetryStore.construct key n, freshBridge) ops).1.getAllData.getLast? ∧
    (TelemetryStore.construct key n).getCurrentData = none := by
  refine ⟨?_, rfl⟩
  have h0 : CurrentInv (TelemetryStore.construct key n) := fun hc => absurd rfl hc
  exact tmRunOps_current (TelemetryStore.construct key n, freshBridge) ops h0 h

/-- Witness for C5 amended: one start with a two-record snapshot. -/
theorem c5_current_equals_last_amended_witness :
    (tmRunOps (TelemetryStore.construct "alt" 3, freshBridge)
        [TmOp.startOp (.ok [rA, rB])]).1.getAllData ≠ [] ∧
    (tmRunOps (TelemetryStore.construct "alt" 3, freshBridge)
        [TmOp.startOp (.ok [rA, rB])]).1.getCurrentData
      = (tmRunOps (TelemetryStore.construct "alt" 3, freshBridge)
          [TmOp.startOp (.ok [rA, rB])]).1.getAllData.getLast? := by
  refine ⟨by decide, ?_⟩
  exact (c5_current_equals_last_amended "alt" 3 [TmOp.startOp (.ok [rA, rB])]
    (by decide)).1

/-- C3: for a `TelemetryStore` of capacity `N ≥ 1` receiving `N + k`
pushed records, `getAllData()` is exactly the last `min (N, N+k)` records in
arrival order (the first `k` are evicted), and its length is `min (N, N+k)`. -/
theorem c3_window_is_last_n (key : String) (n k : Nat) (l : List TelemetryData)
    (hn : 1 ≤ n) (hl : l.length = n + k) :
    ((TelemetryStore.construct key n).pushMany l).getAllData = l.drop k ∧
    ((TelemetryStore.construct key n).pushMany l).getAllData.length = min n (n + k) := by
  have h0 : (TelemetryStore.construct key n).data
      = sliceLast (TelemetryStore.construct key n).maxPoints [] := by
    rw [sliceLast_nil]
    rfl
  obtain ⟨h1, _⟩ := pushMany_data_general l (TelemetryStore.construct key n) [] h0
  have h2 : ((TelemetryStore.construct key n).pushMany l).getAllData = sliceLast n l := by
    show ((TelemetryStore.construct key n).pushMany l).data = sliceLast n l
    rw [h1]
    rfl
  have hmin : min n (n + k) = n := Nat.min_eq_left (Nat.le_add_right n k)
  constructor
  · rw [h2]
    unfold sliceLast
    rw [if_neg (by omega)]
    congr 1
    omega
  · rw [h2, hmin]
    unfold sliceLast
    rw [if_neg (by omega), List.length_drop]
    omega

/-- Witness for C3 at capacity 2 and three records. -/
theorem c3_window_is_last_n_witness :
    (1 ≤ 2 ∧ ([rA, rB, rC] : List TelemetryData).length = 2 + 1) ∧
    ((TelemetryStore.construct "altimeter" 2).pushMany [rA, rB, rC]).getAllData
      = [rB, rC] ∧
    ((TelemetryStore.construct "altimeter" 2).pushMany [rA, rB, rC]).getAllData.length
      = min 2 (2 + 1) := by
  have h := c3_window_is_last_n "altimeter" 2 1 [rA, rB, rC] (by decide) (by decide)
  exact ⟨⟨by decide, by decide⟩, h.1, h.2⟩

/-- C4 counterexample: constructing a `TelemetryStore` with maximum window
size `N = 0` does not fail — the constructor performs no validation and no
`ConfigError` exists; it returns an ordinary store whose `maxPoints` is `0`,
on which appends even succeed (and, via `slice(-0)`, are never evicted). -/
theorem c4_zero_capacity_construction_succeeds :
    TelemetryStore.construct "alt" 0
      = ⟨"alt", [], none, [], 0, none⟩ ∧
    ((TelemetryStore.construct "alt" 0).pushMany [rA]).getAllData = [rA] := by
  constructor
  · rfl
  · rfl

/-- C4 amended: construction never fails for any window size, including
`N = 0`; no parameter validation is performed. The constructed store always
starts with an empty buffer, a null current pointer, no subscribers and no
subscription, and stores the given capacity verbatim; with `N = 0` the
buffer is unbounded (`slice(-0)` keeps the entire history), so every record
ever pushed is retained. -/
theorem c4_construction_never_fails (key : String) (n : Nat)
    (l : List TelemetryData) :
    (TelemetryStore.construct key n).getAllData = [] ∧
    (TelemetryStore.construct key n).getCurrentData = none ∧
    (TelemetryStore.construct key n).subscribers = [] ∧
    (TelemetryStore.construct key n).unlisten = none ∧
    (TelemetryStore.construct key n).maxPoints = n ∧
    ((TelemetryStore.construct key 0).pushMany l).getAllData = l := by
  refine ⟨rfl, rfl, rfl, rfl, rfl, ?_⟩
  have h0 : (TelemetryStore.construct key 0).data
      = sliceLast (TelemetryStore.construct key 0).maxPoints [] := by
    rw [sliceLast_nil]
    rfl
  obtain ⟨h1, _⟩ := pushMany_data_general l (TelemetryStore.construct key 0) [] h0
  show ((TelemetryStore.construct key 0).pushMany l).data = l
  rw [h1]
  rfl

end GroundStation
